import Mathlib

/-!
Verification of the server-side conversion event pipeline
(`cogs-automation`): the CAPI service (`CAPIService` in
`app/services/shopify-marketing.server.ts`) and the webhook adapter
actions (`webhooks.orders.create.tsx`, `webhooks.customers.create.tsx`,
and the checkouts-create route).

The embedding translates the TypeScript source into executable Lean
definitions.  JavaScript dynamic values relevant to the pipeline are
modelled by `JVal` (null/undefined collapsed to `jnull`, numbers as
integers, strings); JavaScript numbers that may be `NaN` are modelled as
`Option Rat` / `Option Int` with `none` standing for `NaN`.  The network
layer (axios) is modelled by passing the outcome of the single HTTP call
as an explicit `Except` argument; `Date.now()` is modelled by an explicit
`now` parameter (milliseconds); the SHA-256 digest from node's `crypto`
library is modelled by an arbitrary digest function `H : String → String`
over which all hashing theorems are universally quantified.
-/

namespace Cogs

/-- A JavaScript primitive value as it appears in the loosely typed
webhook payloads: `jnull` stands for both `null` and `undefined`
(the code only distinguishes them through nullish/falsy checks, where
they behave identically), `jnum` an integral number, `jstr` a string. -/
inductive JVal where
  | jnull : JVal
  | jnum : Int → JVal
  | jstr : String → JVal
deriving DecidableEq, Repr

/-- JavaScript truthiness of a `JVal` (`null`/`undefined`, `0` and the
empty string are falsy). -/
def JVal.truthy : JVal → Bool
  | .jnull => false
  | .jnum n => n != 0
  | .jstr s => s != ""

/-- `x?.toString()`: `undefined` (here `none`) when `x` is nullish,
otherwise the JavaScript string conversion. -/
def JVal.toStr : JVal → Option String
  | .jnull => none
  | .jnum n => some (toString n)
  | .jstr s => some s

/-- Template-literal interpolation of a `JVal`; a nullish value prints
as the word "null" (the source never interpolates a nullish id in the
paths the claims exercise, so the null/undefined spelling is moot). -/
def JVal.interp : JVal → String
  | .jnull => "null"
  | .jnum n => toString n
  | .jstr s => s

/-- JavaScript truthiness filter on an optional string field:
`some s` survives exactly when `s` is nonempty (`""` is falsy). -/
def jsStr : Option String → Option String
  | some s => if s = "" then none else some s
  | none => none

/-- `a || b` on an optional string field with a string default. -/
def jsOr (a : Option String) (b : String) : String := (jsStr a).getD b

/-- `a || b || ...` over a chain of optional strings: the first truthy
(nonempty) one, or `none` when all are falsy. -/
def firstTruthy : List (Option String) → Option String
  | [] => none
  | a :: rest =>
    match jsStr a with
    | some s => some s
    | none => firstTruthy rest

/-- `item.quantity || 1`: a missing (or zero, hence falsy) quantity
defaults to 1. -/
def jsQuantity : Option Nat → Nat
  | some q => if q = 0 then 1 else q
  | none => 1

/-! ### `parseFloat`

A faithful model of JavaScript's `parseFloat` on the decimal strings the
pipeline sees: leading whitespace is skipped, an optional sign, integer
digits, an optional fraction and an optional exponent are consumed as the
longest valid prefix, and trailing garbage is ignored.  `none` models
`NaN` (no digits at all).  Non-finite results ("Infinity") are outside
the model; no claim exercises them. -/

/-- Numeric value of a decimal digit character. -/
def digitVal (c : Char) : Nat := c.toNat - 48

/-- Consume a maximal run of decimal digits, returning the accumulated
value, the number of digits consumed, and the rest of the input. -/
def takeDigits : Nat → Nat → List Char → Nat × Nat × List Char
  | acc, n, [] => (acc, n, [])
  | acc, n, c :: cs =>
    if c.isDigit then takeDigits (acc * 10 + digitVal c) (n + 1) cs
    else (acc, n, c :: cs)

/-- Parse an optional exponent part (`e`/`E`, optional sign, digits);
an absent or malformed exponent contributes the factor 10^0. -/
def parseExpPart : List Char → Int
  | c :: cs =>
    if c = 'e' ∨ c = 'E' then
      match cs with
      | '-' :: rest =>
        let (v, n, _) := takeDigits 0 0 rest
        if n = 0 then 0 else -(v : Int)
      | '+' :: rest =>
        let (v, n, _) := takeDigits 0 0 rest
        if n = 0 then 0 else (v : Int)
      | rest =>
        let (v, n, _) := takeDigits 0 0 rest
        if n = 0 then 0 else (v : Int)
    else 0
  | [] => 0

/-- JavaScript `parseFloat`; `none` models `NaN`.  The parsed value
`sign * (ip + fp/10^fcnt) * 10^e` is built as one exact fraction via
integer arithmetic and `mkRat`. -/
def parseFloat (s : String) : Option Rat :=
  let cs := s.data.dropWhile Char.isWhitespace
  let sgncs : Int × List Char :=
    match cs with
    | '-' :: r => (-1, r)
    | '+' :: r => (1, r)
    | r => (1, r)
  let (ip, icnt, cs2) := takeDigits 0 0 sgncs.2
  let fpr : Nat × Nat × List Char :=
    match cs2 with
    | '.' :: r => takeDigits 0 0 r
    | r => (0, 0, r)
  let (fp, fcnt, cs3) := fpr
  if icnt = 0 ∧ fcnt = 0 then none
  else
    let e := parseExpPart cs3
    let num : Int := sgncs.1 * ((ip * 10 ^ fcnt + fp : Nat) : Int)
    some (if 0 ≤ e then mkRat (num * (10 : Int) ^ e.toNat) (10 ^ fcnt)
          else mkRat num (10 ^ fcnt * 10 ^ (-e).toNat))

/-! ### `new Date(string).getTime()`

A model of date parsing for the ISO-8601 date-time strings Shopify
delivers in `created_at` (`YYYY-MM-DDTHH:mm:ss` with optional `.sss`
fraction and `Z` / `±HH:MM` offset, or a bare `YYYY-MM-DD`).  The result
is milliseconds since the Unix epoch; `none` models an invalid date
(`getTime()` returning `NaN`), which is what V8 produces for strings
such as "garbage".  A date-time without an explicit offset is taken as
UTC (the model fixes the host time zone to UTC). -/

/-- Parse exactly two decimal digits. -/
def parse2 : List Char → Option (Nat × List Char)
  | a :: b :: rest =>
    if a.isDigit ∧ b.isDigit then some (digitVal a * 10 + digitVal b, rest) else none
  | _ => none

/-- Parse exactly four decimal digits. -/
def parse4 : List Char → Option (Nat × List Char)
  | a :: b :: c :: d :: rest =>
    if a.isDigit ∧ b.isDigit ∧ c.isDigit ∧ d.isDigit then
      some (((digitVal a * 10 + digitVal b) * 10 + digitVal c) * 10 + digitVal d, rest)
    else none
  | _ => none

/-- Require the next character to be `c`. -/
def expectChar (c : Char) : List Char → Option (List Char)
  | x :: rest => if x = c then some rest else none
  | [] => none

/-- Gregorian leap-year test. -/
def isLeap (y : Int) : Bool := (y % 4 == 0 && y % 100 != 0) || y % 400 == 0

/-- Number of days in a month. -/
def daysInMonth (y : Int) (m : Nat) : Nat :=
  if m = 2 then (if isLeap y then 29 else 28)
  else if m = 4 ∨ m = 6 ∨ m = 9 ∨ m = 11 then 30
  else 31

/-- Days from the Unix epoch to the given civil date
(standard days-from-civil computation). -/
def daysFromCivil (y : Int) (m d : Nat) : Int :=
  let yAdj : Int := if m ≤ 2 then y - 1 else y
  let era : Int := Int.fdiv yAdj 400
  let yoe : Nat := (yAdj - era * 400).toNat
  let mp : Nat := (m + 9) % 12
  let doy : Nat := (153 * mp + 2) / 5 + d - 1
  let doe : Nat := yoe * 365 + yoe / 4 - yoe / 100 + doy
  era * 146097 + (doe : Int) - 719468

/-- UTC milliseconds since epoch for a civil date-time with a UTC offset
in minutes. -/
def utcMillis (y : Int) (mo d h mi se ms : Nat) (offsetMin : Int) : Int :=
  daysFromCivil y mo d * 86400000
    + ((h * 3600000 + mi * 60000 + se * 1000 + ms : Nat) : Int)
    - offsetMin * 60000

/-- Parse a `.sss` millisecond fraction (one to three digits). -/
def parseFrac : List Char → Option (Nat × List Char)
  | '.' :: rest =>
    let (v, n, r) := takeDigits 0 0 rest
    if n = 1 then some (v * 100, r)
    else if n = 2 then some (v * 10, r)
    else if n = 3 then some (v, r)
    else none
  | _ => none

/-- Parse `HH:mm[:ss[.sss]]`. -/
def parseTime (cs : List Char) : Option (Nat × Nat × Nat × Nat × List Char) := do
  let (h, cs1) ← parse2 cs
  let cs2 ← expectChar ':' cs1
  let (mi, cs3) ← parse2 cs2
  let rest ←
    match cs3 with
    | ':' :: cs4 => do
      let (se, cs5) ← parse2 cs4
      match cs5 with
      | '.' :: _ => do
        let (ms, cs6) ← parseFrac cs5
        pure (se, ms, cs6)
      | _ => pure (se, 0, cs5)
    | _ => pure (0, 0, cs3)
  let (se, ms, cs7) := rest
  if h ≤ 23 ∧ mi ≤ 59 ∧ se ≤ 59 then some (h, mi, se, ms, cs7) else none

/-- Parse a UTC-offset suffix: `Z` or `±HH:MM`, in minutes. -/
def parseOffset : List Char → Option (Int × List Char)
  | 'Z' :: rest => some (0, rest)
  | '+' :: rest => do
    let (h, cs1) ← parse2 rest
    let cs2 ← expectChar ':' cs1
    let (mi, cs3) ← parse2 cs2
    if h ≤ 23 ∧ mi ≤ 59 then some (((h * 60 + mi : Nat) : Int), cs3) else none
  | '-' :: rest => do
    let (h, cs1) ← parse2 rest
    let cs2 ← expectChar ':' cs1
    let (mi, cs3) ← parse2 cs2
    if h ≤ 23 ∧ mi ≤ 59 then some (-((h * 60 + mi : Nat) : Int), cs3) else none
  | _ => none

/-- `new Date(s).getTime()` on an ISO-8601 string, in milliseconds since
the epoch; `none` models an invalid date (`NaN`). -/
def parseDate (s : String) : Option Int := do
  let (y, cs1) ← parse4 s.data
  let cs2 ← expectChar '-' cs1
  let (mo, cs3) ← parse2 cs2
  let cs4 ← expectChar '-' cs3
  let (d, cs5) ← parse2 cs4
  if mo < 1 ∨ 12 < mo ∨ d < 1 ∨ daysInMonth (y : Int) mo < d then none
  else
    match cs5 with
    | [] => some (utcMillis (y : Int) mo d 0 0 0 0 0)
    | 'T' :: cs6 => do
      let (h, mi, se, ms, cs7) ← parseTime cs6
      match cs7 with
      | [] => some (utcMillis (y : Int) mo d h mi se ms 0)
      | rest => do
        let (off, cs8) ← parseOffset rest
        match cs8 with
        | [] => some (utcMillis (y : Int) mo d h mi se ms off)
        | _ => none
    | _ => none

/-! ### Upstream payload shapes

Only the fields the pipeline reads are modelled; every field is optional,
mirroring the loosely typed webhook payloads (`Partial<Order>`,
`Partial<Customer>` in the source). -/

/-- `customer.default_address` sub-record. -/
structure Address where
  city : Option String := none
  province : Option String := none
  zip : Option String := none
  country : Option String := none
deriving DecidableEq, Repr

/-- A customer record (order sub-record or customers/create payload). -/
structure Customer where
  id : JVal := .jnull
  email : Option String := none
  phone : Option String := none
  first_name : Option String := none
  last_name : Option String := none
  default_address : Option Address := none
  created_at : Option String := none
deriving DecidableEq, Repr

/-- `order.client_details` sub-record. -/
structure ClientDetails where
  user_agent : Option String := none
deriving DecidableEq, Repr

/-- A line item of an order or checkout. -/
structure LineItem where
  id : JVal := .jnull
  product_id : JVal := .jnull
  variant_id : JVal := .jnull
  quantity : Option Nat := none
  price : Option String := none
deriving DecidableEq, Repr

/-- An orders/create or checkouts/create payload (the two routes read
the same fields). -/
structure Order where
  id : JVal := .jnull
  name : Option String := none
  total_price : Option String := none
  currency : Option String := none
  created_at : Option String := none
  landing_site_ref : Option String := none
  line_items : Option (List LineItem) := none
  browser_ip : Option String := none
  client_details : Option ClientDetails := none
  customer : Option Customer := none
deriving DecidableEq, Repr

/-! ### The CAPI event shape -/

/-- `user_data` of a CAPI event; every field optional, absent by
default (a field assigned `undefined` in the source serializes the same
as an absent field and is modelled as `none`). -/
structure UserData where
  em : Option (List String) := none
  ph : Option (List String) := none
  fn : Option (List String) := none
  ln : Option (List String) := none
  ct : Option (List String) := none
  st : Option (List String) := none
  zp : Option (List String) := none
  country : Option (List String) := none
  external_id : Option (List String) := none
  client_ip_address : Option String := none
  client_user_agent : Option String := none
  fbc : Option String := none
  fbp : Option String := none
deriving DecidableEq, Repr

/-- An entry of `custom_data.contents`; `item_price` is an
`Option Rat` with `none` modelling `NaN`. -/
structure Content where
  id : String
  quantity : Nat
  item_price : Option Rat := none
deriving DecidableEq, Repr

/-- `custom_data` of a CAPI event.  `value` is doubly optional: the
outer `Option` is field presence, the inner `none` models `NaN`. -/
structure CustomData where
  value : Option (Option Rat) := none
  currency : Option String := none
  content_type : Option String := none
  content_ids : Option (List String) := none
  content_name : Option String := none
  content_category : Option String := none
  num_items : Option Nat := none
  order_id : Option String := none
  contents : Option (List Content) := none
deriving DecidableEq, Repr

/-- A conversion event as submitted to the CAPI ingestion endpoint.
`event_time` is in whole seconds; `none` models `NaN`. -/
structure CAPIEvent where
  event_name : String
  event_time : Option Int
  action_source : String := "website"
  event_source_url : Option String := none
  user_data : UserData
  custom_data : Option CustomData := none
  event_id : Option String := none
deriving DecidableEq, Repr

/-! ### PII hashing (CAPIService.hashPII) -/

/-- `hashPII`: digest of the lower-cased, trimmed input.  `H` stands for
the SHA-256 hex digest from node's crypto library, which is external to
this repository; all theorems quantify over it. -/
def hashPII (H : String → String) (s : String) : String := H (s.toLower.trim)

/-- The normalization the spec prescribes before hashing: lower-case,
then trim leading/trailing whitespace. -/
def normalizePII (s : String) : String := (s.toLower).trim

/-- Client context forwarded by the webhook adapters. -/
structure ClientData where
  ip : Option String := none
  userAgent : Option String := none
  fbc : Option String := none
  fbp : Option String := none
  sourceUrl : Option String := none
deriving DecidableEq, Repr

/-- Conditional field assignment: `if (o is truthy) target = set o`,
the shape of every guard in `createUserData` (the truthiness filtering
of the raw value happens at the call site via `jsStr`). -/
def assignIf {α : Type} (o : Option α) (set : α → UserData → UserData)
    (ud : UserData) : UserData :=
  match o with
  | some v => set v ud
  | none => ud

/-- `CAPIService.createUserData`: starting from an empty `user_data`,
conditionally assign each hashed PII field, in the source's order of
mutation (each `let` is one `if (...) userData.x = [...]` statement). -/
def createUserData (H : String → String) (customer : Option Customer)
    (clientIp userAgent fbc fbp : Option String) : UserData :=
  let ud0 : UserData := {}
  let udC :=
    match customer with
    | some c =>
      let a1 := assignIf (jsStr c.email)
        (fun v ud => { ud with em := some [hashPII H v] }) ud0
      let a2 := assignIf (jsStr c.phone)
        (fun v ud => { ud with ph := some [hashPII H v] }) a1
      let a3 := assignIf (jsStr c.first_name)
        (fun v ud => { ud with fn := some [hashPII H v] }) a2
      let a4 := assignIf (jsStr c.last_name)
        (fun v ud => { ud with ln := some [hashPII H v] }) a3
      let a5 := assignIf (jsStr (c.default_address.bind Address.city))
        (fun v ud => { ud with ct := some [hashPII H v] }) a4
      let a6 := assignIf (jsStr (c.default_address.bind Address.province))
        (fun v ud => { ud with st := some [hashPII H v] }) a5
      let a7 := assignIf (jsStr (c.default_address.bind Address.zip))
        (fun v ud => { ud with zp := some [hashPII H v] }) a6
      let a8 := assignIf (jsStr (c.default_address.bind Address.country))
        (fun v ud => { ud with country := some [hashPII H v] }) a7
      if c.id.truthy then { a8 with external_id := some [hashPII H c.id.interp] } else a8
    | none => ud0
  let u1 := assignIf (jsStr clientIp)
    (fun v ud => { ud with client_ip_address := some v }) udC
  let u2 := assignIf (jsStr userAgent)
    (fun v ud => { ud with client_user_agent := some v }) u1
  let u3 := assignIf (jsStr fbc) (fun v ud => { ud with fbc := some v }) u2
  assignIf (jsStr fbp) (fun v ud => { ud with fbp := some v }) u3

/-- Shorthand: `createUserData` applied to a `ClientData` record, the
way every `track*` method calls it. -/
def userDataOf (H : String → String) (customer : Option Customer)
    (cd : ClientData) : UserData :=
  createUserData H customer cd.ip cd.userAgent cd.fbc cd.fbp

/-- Event-time computation shared by `trackPurchase` and the
customers/create route:
`Math.floor((created_at ? new Date(created_at).getTime() : Date.now()) / 1000)`.
`none` models `NaN` (present but unparseable `created_at`). -/
def eventTimeOf (created_at : Option String) (now : Nat) : Option Int :=
  match jsStr created_at with
  | some s => (parseDate s).map (fun ms => Int.fdiv ms 1000)
  | none => some (Int.fdiv (now : Int) 1000)

/-- The `contents` array built by `trackPurchase` from the order's line
items: id is `item.product_id?.toString() || item.variant_id?.toString() || ''`,
quantity is `item.quantity || 1`, item price is
`parseFloat(item.price || '0')`. -/
def purchaseContents (items : List LineItem) : List Content :=
  items.map fun item =>
    { id := (firstTruthy [item.product_id.toStr, item.variant_id.toStr]).getD ""
      quantity := jsQuantity item.quantity
      item_price := parseFloat (jsOr item.price "0") }

/-- The event built by `CAPIService.trackPurchase`. -/
def trackPurchaseEvent (H : String → String) (order : Order)
    (customer : Option Customer) (eventId : Option String)
    (clientData : ClientData) (now : Nat) : CAPIEvent :=
  let contents := purchaseContents (order.line_items.getD [])
  { event_name := "Purchase"
    event_time := eventTimeOf order.created_at now
    action_source := "website"
    event_source_url := jsStr order.landing_site_ref
    user_data := userDataOf H customer clientData
    custom_data := some
      { value := some (parseFloat (jsOr order.total_price "0"))
        currency := some (jsOr order.currency "USD")
        content_type := some "product"
        content_ids := some (contents.map Content.id)
        num_items := some (contents.map Content.quantity).sum
        order_id := some ((firstTruthy [order.id.toStr, order.name]).getD "")
        contents := some contents }
    event_id := some (jsOr eventId (order.id.interp ++ "_purchase_" ++ toString now)) }

/-- The event built by `CAPIService.trackInitiateCheckout`.  `value` is
a JavaScript number, possibly `NaN` (`none`). -/
def trackInitiateCheckoutEvent (H : String → String) (value : Option Rat)
    (currency : String) (contentIds : List String) (numItems : Nat)
    (customer : Option Customer) (eventId : Option String)
    (clientData : ClientData) (now : Nat) : CAPIEvent :=
  { event_name := "InitiateCheckout"
    event_time := some (Int.fdiv (now : Int) 1000)
    action_source := "website"
    event_source_url := clientData.sourceUrl
    user_data := userDataOf H customer clientData
    custom_data := some
      { value := some value
        currency := some currency
        content_type := some "product"
        content_ids := some contentIds
        num_items := some numItems }
    event_id := some (jsOr eventId ("initiate_checkout_" ++ toString now)) }

/-- The event built by `CAPIService.trackAddToCart`. -/
def trackAddToCartEvent (H : String → String) (productId variantId : String)
    (quantity : Nat) (price : Option Rat) (currency : String)
    (customer : Option Customer) (eventId : Option String)
    (clientData : ClientData) (now : Nat) : CAPIEvent :=
  let contentId := jsOr (some variantId) productId
  { event_name := "AddToCart"
    event_time := some (Int.fdiv (now : Int) 1000)
    action_source := "website"
    event_source_url := clientData.sourceUrl
    user_data := userDataOf H customer clientData
    custom_data := some
      { value := some (price.map (fun p => p * (quantity : Rat)))
        currency := some currency
        content_type := some "product"
        content_ids := some [contentId]
        num_items := some quantity
        contents := some [{ id := contentId, quantity := quantity, item_price := price }] }
    event_id := some (jsOr eventId
      (productId ++ "_" ++ variantId ++ "_addtocart_" ++ toString now)) }

/-- The event built by `CAPIService.trackPageView`.  `rand` stands for
the `Math.random().toString(36).substring(7)` fragment of the default
event id. -/
def trackPageViewEvent (H : String → String) (url : String)
    (customer : Option Customer) (eventId : Option String)
    (clientData : ClientData) (now : Nat) (rand : String) : CAPIEvent :=
  { event_name := "PageView"
    event_time := some (Int.fdiv (now : Int) 1000)
    action_source := "website"
    event_source_url := some url
    user_data := userDataOf H customer clientData
    event_id := some (jsOr eventId ("pageview_" ++ toString now ++ "_" ++ rand)) }

/-- The event built by `CAPIService.trackViewContent`. -/
def trackViewContentEvent (H : String → String) (productId contentName
    contentCategory : String) (value : Option Rat) (currency : String)
    (customer : Option Customer) (eventId : Option String)
    (clientData : ClientData) (now : Nat) : CAPIEvent :=
  { event_name := "ViewContent"
    event_time := some (Int.fdiv (now : Int) 1000)
    action_source := "website"
    event_source_url := clientData.sourceUrl
    user_data := userDataOf H customer clientData
    custom_data := some
      { value := some value
        currency := some currency
        content_type := some "product"
        content_ids := some [productId]
        content_name := some contentName
        content_category := some contentCategory }
    event_id := some (jsOr eventId (productId ++ "_viewcontent_" ++ toString now)) }

/-- `user_data` of the CompleteRegistration event the customers/create
route builds inline (each field a ternary on truthiness of the raw
value). -/
def registrationUserData (H : String → String) (customer : Customer) : UserData :=
  { em := (jsStr customer.email).map (fun v => [hashPII H v])
    ph := (jsStr customer.phone).map (fun v => [hashPII H v])
    fn := (jsStr customer.first_name).map (fun v => [hashPII H v])
    ln := (jsStr customer.last_name).map (fun v => [hashPII H v])
    ct := (jsStr (customer.default_address.bind Address.city)).map (fun v => [hashPII H v])
    st := (jsStr (customer.default_address.bind Address.province)).map (fun v => [hashPII H v])
    zp := (jsStr (customer.default_address.bind Address.zip)).map (fun v => [hashPII H v])
    country := (jsStr (customer.default_address.bind Address.country)).map (fun v => [hashPII H v])
    external_id := if customer.id.truthy then some [hashPII H customer.id.interp] else none }

/-- The CompleteRegistration event built by the customers/create route. -/
def completeRegistrationEvent (H : String → String) (customer : Customer)
    (eventId : String) (now : Nat) : CAPIEvent :=
  { event_name := "CompleteRegistration"
    event_time := eventTimeOf customer.created_at now
    action_source := "website"
    user_data := registrationUserData H customer
    custom_data := some { content_type := some "registration" }
    event_id := some eventId }

/-! ### CAPI transport (CAPIService.sendEvents) -/

/-- Construction state of a `CAPIService`. -/
structure CAPIService where
  pixelId : String
  accessToken : String
  testEventCode : Option String := none
deriving DecidableEq, Repr

/-- The single HTTP request `sendEvents` issues: URL, JSON body fields,
and the axios timeout. -/
structure SendRequest where
  url : String
  data : List CAPIEvent
  access_token : String
  test_event_code : Option String
  timeoutMs : Nat
deriving DecidableEq, Repr

/-- An axios failure: the upstream error detail
(`error.response?.data?.error?.message`, when the response body provides
one) and the transport error message (`error.message`). -/
structure AxiosError where
  responseErrorMessage : Option String := none
  message : String := ""
deriving DecidableEq, Repr

/-- The parsed acknowledgment from the ingestion endpoint. -/
structure CAPIResponse where
  events_received : Nat
  messages : List String := []
  fbtrace_id : String := ""
deriving DecidableEq, Repr

/-- `CAPIService.sendEvents`: build the request (body = events batch,
access token, test tag when truthy; 10 s timeout) and either return the
acknowledgment or throw an error carrying the upstream detail, the
network outcome being supplied explicitly.  The returned pair is (the
request issued, the result or thrown message). -/
def sendEvents (svc : CAPIService) (events : List CAPIEvent)
    (net : Except AxiosError CAPIResponse) :
    SendRequest × Except String CAPIResponse :=
  let req : SendRequest :=
    { url := "https://graph.facebook.com/v18.0/" ++ svc.pixelId ++ "/events"
      data := events
      access_token := svc.accessToken
      test_event_code := jsStr svc.testEventCode
      timeoutMs := 10000 }
  match net with
  | .ok r => (req, .ok r)
  | .error e =>
    (req, .error ("CAPI request failed: " ++ jsOr e.responseErrorMessage e.message))

/-! ### Webhook adapter actions -/

/-- The per-shop connection record the routes load
(`prisma.meta.findUnique`). -/
structure MetaConnection where
  pixelId : String
  accessToken : String
deriving DecidableEq, Repr

/-- Observable outcome of a webhook action: the HTTP status of the
acknowledgment (`new Response()` is an empty 200), the transport calls
performed, and the pipeline error caught by the try/catch, if any. -/
structure ActionOutcome where
  status : Nat
  sendCalls : List SendRequest
  caughtError : Option String
deriving DecidableEq, Repr

/-- The empty 200 acknowledgment with no transport activity. -/
def emptyOk : ActionOutcome := { status := 200, sendCalls := [], caughtError := none }

/-- Dedup key generated by the orders/create route:
`shopify_order_{order.id}_{Date.now()}`. -/
def orderDedupKey (id : JVal) (now : Nat) : String :=
  "shopify_order_" ++ id.interp ++ "_" ++ toString now

/-- Dedup key generated by the checkouts/create route:
`shopify_checkout_{checkout.id}_{Date.now()}`. -/
def checkoutDedupKey (id : JVal) (now : Nat) : String :=
  "shopify_checkout_" ++ id.interp ++ "_" ++ toString now

/-- Dedup key generated by the customers/create route:
`shopify_customer_{customer.id}_signup_{Date.now()}`. -/
def customerDedupKey (id : JVal) (now : Nat) : String :=
  "shopify_customer_" ++ id.interp ++ "_signup_" ++ toString now

/-- The orders/create webhook action.  `hasSession` models the
authentication result, `conn` the per-shop connection record, `payload`
the webhook body, `net` the outcome of the (at most one) transport call,
`now` the clock. -/
def ordersCreateAction (H : String → String) (hasSession : Bool)
    (conn : Option MetaConnection) (payload : Option Order)
    (net : Except AxiosError CAPIResponse) (now : Nat) : ActionOutcome :=
  if !hasSession then emptyOk
  else
    match conn with
    | none => emptyOk
    | some mc =>
      if mc.pixelId = "" then emptyOk
      else
        match payload with
        | none => emptyOk
        | some order =>
          let svc : CAPIService := { pixelId := mc.pixelId, accessToken := mc.accessToken }
          let clientData : ClientData :=
            { ip := jsStr order.browser_ip
              userAgent := jsStr (order.client_details.bind ClientDetails.user_agent) }
          let eventId := orderDedupKey order.id now
          let ev := trackPurchaseEvent H order order.customer (some eventId) clientData now
          let (req, res) := sendEvents svc [ev] net
          match res with
          | .ok _ => { status := 200, sendCalls := [req], caughtError := none }
          | .error m => { status := 200, sendCalls := [req], caughtError := some m }

/-- Content-id extraction of the checkouts/create route:
`item.variant_id?.toString() || item.product_id?.toString() || item.id?.toString()`,
then `.filter(Boolean)`. -/
def checkoutContentIds (items : List LineItem) : List String :=
  items.filterMap fun item =>
    firstTruthy [item.variant_id.toStr, item.product_id.toStr, item.id.toStr]

/-- The checkouts/create webhook action. -/
def checkoutsCreateAction (H : String → String) (hasSession : Bool)
    (conn : Option MetaConnection) (payload : Option Order)
    (net : Except AxiosError CAPIResponse) (now : Nat) : ActionOutcome :=
  if !hasSession then emptyOk
  else
    match conn with
    | none => emptyOk
    | some mc =>
      if mc.pixelId = "" then emptyOk
      else
        match payload with
        | none => emptyOk
        | some checkout =>
          match checkout.line_items with
          | none => emptyOk
          | some [] => emptyOk
          | some items =>
            let svc : CAPIService := { pixelId := mc.pixelId, accessToken := mc.accessToken }
            let contentIds := checkoutContentIds items
            let numItems := (items.map (fun it => jsQuantity it.quantity)).sum
            let clientData : ClientData :=
              { ip := jsStr checkout.browser_ip
                userAgent := jsStr (checkout.client_details.bind ClientDetails.user_agent)
                sourceUrl := jsStr checkout.landing_site_ref }
            let eventId := checkoutDedupKey checkout.id now
            let ev := trackInitiateCheckoutEvent H
              (parseFloat (jsOr checkout.total_price "0"))
              (jsOr checkout.currency "USD") contentIds numItems
              checkout.customer (some eventId) clientData now
            let (req, res) := sendEvents svc [ev] net
            match res with
            | .ok _ => { status := 200, sendCalls := [req], caughtError := none }
            | .error m => { status := 200, sendCalls := [req], caughtError := some m }

/-- The customers/create webhook action. -/
def customersCreateAction (H : String → String) (hasSession : Bool)
    (conn : Option MetaConnection) (payload : Option Customer)
    (net : Except AxiosError CAPIResponse) (now : Nat) : ActionOutcome :=
  if !hasSession then emptyOk
  else
    match conn with
    | none => emptyOk
    | some mc =>
      if mc.pixelId = "" then emptyOk
      else
        match payload with
        | none => emptyOk
        | some customer =>
          let svc : CAPIService := { pixelId := mc.pixelId, accessToken := mc.accessToken }
          let eventId := customerDedupKey customer.id now
          let ev := completeRegistrationEvent H customer eventId now
          let (req, res) := sendEvents svc [ev] net
          match res with
          | .ok _ => { status := 200, sendCalls := [req], caughtError := none }
          | .error m => { status := 200, sendCalls := [req], caughtError := some m }

/-! ## Specification-side formulations -/

/-- The spec's description of one hashed identity field: present exactly
when the raw upstream value is present and nonempty, and then equal to
the digest `H` (SHA-256, hex) of the lower-cased, whitespace-trimmed raw
value. -/
def hashedField (H : String → String) (raw : Option String) : Option (List String) :=
  (jsStr raw).map (fun s => [H (normalizePII s)])

/-- The spec's description of the hashed `external_id` field: present
exactly when the upstream customer id is present and truthy, and then
the digest of the normalized string form of the id. -/
def hashedIdField (H : String → String) (idv : Option JVal) : Option (List String) :=
  match idv with
  | some v => if v.truthy then some [H (normalizePII v.interp)] else none
  | none => none

/-! ## Helper lemmas -/

theorem assignIf_proj {α γ : Type} {o : Option α} {set : α → UserData → UserData}
    {ud : UserData} (f : UserData → γ) (h : ∀ v, f (set v ud) = f ud) :
    f (assignIf o set ud) = f ud := by
  cases o <;> simp [assignIf, h]

theorem assignIf_set_proj {α γ : Type} {o : Option α} {set : α → UserData → UserData}
    {ud : UserData} (f : UserData → γ) (g : α → γ)
    (h1 : ∀ v, f (set v ud) = g v) :
    f (assignIf o set ud) = (o.map g).getD (f ud) := by
  cases o <;> simp [assignIf, h1]

theorem map_getD_none {α β : Type} (o : Option α) (g : α → β) :
    (o.map (fun v => some (g v))).getD none = o.map g := by
  cases o <;> rfl

theorem map_some_getD_none {α : Type} (o : Option α) :
    (o.map some).getD none = o := by
  cases o <;> rfl

theorem cud_em (H : String → String) (cust : Option Customer) (ip ua fbc fbp : Option String) :
    (createUserData H cust ip ua fbc fbp).em = hashedField H (cust.bind Customer.email) := by
  cases cust with
  | none =>
    simp only [createUserData, Option.none_bind]
    repeat rw [assignIf_proj UserData.em (fun v => rfl)]
    rfl
  | some c =>
    simp only [createUserData, Option.some_bind]
    cases h9 : c.id.truthy <;>
      simp only [eq_self_iff_true, Bool.false_eq_true, if_true, if_false] <;>
      (try dsimp only) <;>
      (repeat rw [assignIf_proj UserData.em (fun v => rfl)]) <;>
      rw [assignIf_set_proj UserData.em (fun v => some [hashPII H v]) (fun v => rfl)] <;>
      (repeat rw [assignIf_proj UserData.em (fun v => rfl)]) <;>
      rw [map_getD_none] <;>
      rfl

theorem cud_ph (H : String → String) (cust : Option Customer) (ip ua fbc fbp : Option String) :
    (createUserData H cust ip ua fbc fbp).ph = hashedField H (cust.bind Customer.phone) := by
  cases cust with
  | none =>
    simp only [createUserData, Option.none_bind]
    repeat rw [assignIf_proj UserData.ph (fun v => rfl)]
    rfl
  | some c =>
    simp only [createUserData, Option.some_bind]
    cases h9 : c.id.truthy <;>
      simp only [eq_self_iff_true, Bool.false_eq_true, if_true, if_false] <;>
      (try dsimp only) <;>
      (repeat rw [assignIf_proj UserData.ph (fun v => rfl)]) <;>
      rw [assignIf_set_proj UserData.ph (fun v => some [hashPII H v]) (fun v => rfl)] <;>
      (repeat rw [assignIf_proj UserData.ph (fun v => rfl)]) <;>
      rw [map_getD_none] <;>
      rfl

theorem cud_fn (H : String → String) (cust : Option Customer) (ip ua fbc fbp : Option String) :
    (createUserData H cust ip ua fbc fbp).fn = hashedField H (cust.bind Customer.first_name) := by
  cases cust with
  | none =>
    simp only [createUserData, Option.none_bind]
    repeat rw [assignIf_proj UserData.fn (fun v => rfl)]
    rfl
  | some c =>
    simp only [createUserData, Option.some_bind]
    cases h9 : c.id.truthy <;>
      simp only [eq_self_iff_true, Bool.false_eq_true, if_true, if_false] <;>
      (try dsimp only) <;>
      (repeat rw [assignIf_proj UserData.fn (fun v => rfl)]) <;>
      rw [assignIf_set_proj UserData.fn (fun v => some [hashPII H v]) (fun v => rfl)] <;>
      (repeat rw [assignIf_proj UserData.fn (fun v => rfl)]) <;>
      rw [map_getD_none] <;>
      rfl

theorem cud_ln (H : String → String) (cust : Option Customer) (ip ua fbc fbp : Option String) :
    (createUserData H cust ip ua fbc fbp).ln = hashedField H (cust.bind Customer.last_name) := by
  cases cust with
  | none =>
    simp only [createUserData, Option.none_bind]
    repeat rw [assignIf_proj UserData.ln (fun v => rfl)]
    rfl
  | some c =>
    simp only [createUserData, Option.some_bind]
    cases h9 : c.id.truthy <;>
      simp only [eq_self_iff_true, Bool.false_eq_true, if_true, if_false] <;>
      (try dsimp only) <;>
      (repeat rw [assignIf_proj UserData.ln (fun v => rfl)]) <;>
      rw [assignIf_set_proj UserData.ln (fun v => some [hashPII H v]) (fun v => rfl)] <;>
      (repeat rw [assignIf_proj UserData.ln (fun v => rfl)]) <;>
      rw [map_getD_none] <;>
      rfl

theorem cud_ct (H : String → String) (cust : Option Customer) (ip ua fbc fbp : Option String) :
    (createUserData H cust ip ua fbc fbp).ct =
      hashedField H ((cust.bind Customer.default_address).bind Address.city) := by
  cases cust with
  | none =>
    simp only [createUserData, Option.none_bind]
    repeat rw [assignIf_proj UserData.ct (fun v => rfl)]
    rfl
  | some c =>
    simp only [createUserData, Option.some_bind]
    cases h9 : c.id.truthy <;>
      simp only [eq_self_iff_true, Bool.false_eq_true, if_true, if_false] <;>
      (try dsimp only) <;>
      (repeat rw [assignIf_proj UserData.ct (fun v => rfl)]) <;>
      rw [assignIf_set_proj UserData.ct (fun v => some [hashPII H v]) (fun v => rfl)] <;>
      (repeat rw [assignIf_proj UserData.ct (fun v => rfl)]) <;>
      rw [map_getD_none] <;>
      rfl

theorem cud_st (H : String → String) (cust : Option Customer) (ip ua fbc fbp : Option String) :
    (createUserData H cust ip ua fbc fbp).st =
      hashedField H ((cust.bind Customer.default_address).bind Address.province) := by
  cases cust with
  | none =>
    simp only [createUserData, Option.none_bind]
    repeat rw [assignIf_proj UserData.st (fun v => rfl)]
    rfl
  | some c =>
    simp only [createUserData, Option.some_bind]
    cases h9 : c.id.truthy <;>
      simp only [eq_self_iff_true, Bool.false_eq_true, if_true, if_false] <;>
      (try dsimp only) <;>
      (repeat rw [assignIf_proj UserData.st (fun v => rfl)]) <;>
      rw [assignIf_set_proj UserData.st (fun v => some [hashPII H v]) (fun v => rfl)] <;>
      (repeat rw [assignIf_proj UserData.st (fun v => rfl)]) <;>
      rw [map_getD_none] <;>
      rfl

theorem cud_zp (H : String → String) (cust : Option Customer) (ip ua fbc fbp : Option String) :
    (createUserData H cust ip ua fbc fbp).zp =
      hashedField H ((cust.bind Customer.default_address).bind Address.zip) := by
  cases cust with
  | none =>
    simp only [createUserData, Option.none_bind]
    repeat rw [assignIf_proj UserData.zp (fun v => rfl)]
    rfl
  | some c =>
    simp only [createUserData, Option.some_bind]
    cases h9 : c.id.truthy <;>
      simp only [eq_self_iff_true, Bool.false_eq_true, if_true, if_false] <;>
      (try dsimp only) <;>
      (repeat rw [assignIf_proj UserData.zp (fun v => rfl)]) <;>
      rw [assignIf_set_proj UserData.zp (fun v => some [hashPII H v]) (fun v => rfl)] <;>
      (repeat rw [assignIf_proj UserData.zp (fun v => rfl)]) <;>
      rw [map_getD_none] <;>
      rfl

theorem cud_country (H : String → String) (cust : Option Customer) (ip ua fbc fbp : Option String) :
    (createUserData H cust ip ua fbc fbp).country =
      hashedField H ((cust.bind Customer.default_address).bind Address.country) := by
  cases cust with
  | none =>
    simp only [createUserData, Option.none_bind]
    repeat rw [assignIf_proj UserData.country (fun v => rfl)]
    rfl
  | some c =>
    simp only [createUserData, Option.some_bind]
    cases h9 : c.id.truthy <;>
      simp only [eq_self_iff_true, Bool.false_eq_true, if_true, if_false] <;>
      (try dsimp only) <;>
      (repeat rw [assignIf_proj UserData.country (fun v => rfl)]) <;>
      rw [assignIf_set_proj UserData.country (fun v => some [hashPII H v]) (fun v => rfl)] <;>
      (repeat rw [assignIf_proj UserData.country (fun v => rfl)]) <;>
      rw [map_getD_none] <;>
      rfl

theorem cud_external_id (H : String → String) (cust : Option Customer)
    (ip ua fbc fbp : Option String) :
    (createUserData H cust ip ua fbc fbp).external_id = hashedIdField H (cust.map Customer.id) := by
  cases cust with
  | none =>
    simp only [createUserData, Option.map_none']
    repeat rw [assignIf_proj UserData.external_id (fun v => rfl)]
    rfl
  | some c =>
    simp only [createUserData, Option.map_some', hashedIdField]
    cases h9 : c.id.truthy <;>
      simp only [eq_self_iff_true, Bool.false_eq_true, if_true, if_false] <;>
      (try dsimp only) <;>
      (repeat rw [assignIf_proj UserData.external_id (fun v => rfl)]) <;>
      rfl

theorem cud_client_ip (H : String → String) (cust : Option Customer)
    (ip ua fbc fbp : Option String) :
    (createUserData H cust ip ua fbc fbp).client_ip_address = jsStr ip := by
  cases cust with
  | none =>
    simp only [createUserData]
    repeat rw [assignIf_proj UserData.client_ip_address (fun v => rfl)]
    rw [assignIf_set_proj UserData.client_ip_address (fun v => some v) (fun v => rfl)]
    rw [map_some_getD_none]
  | some c =>
    simp only [createUserData]
    cases h9 : c.id.truthy <;>
      simp only [eq_self_iff_true, Bool.false_eq_true, if_true, if_false] <;>
      (try dsimp only) <;>
      (repeat rw [assignIf_proj UserData.client_ip_address (fun v => rfl)]) <;>
      rw [assignIf_set_proj UserData.client_ip_address (fun v => some v) (fun v => rfl)] <;>
      (repeat rw [assignIf_proj UserData.client_ip_address (fun v => rfl)]) <;>
      rw [map_some_getD_none]

theorem cud_client_ua (H : String → String) (cust : Option Customer)
    (ip ua fbc fbp : Option String) :
    (createUserData H cust ip ua fbc fbp).client_user_agent = jsStr ua := by
  cases cust with
  | none =>
    simp only [createUserData]
    repeat rw [assignIf_proj UserData.client_user_agent (fun v => rfl)]
    rw [assignIf_set_proj UserData.client_user_agent (fun v => some v) (fun v => rfl)]
    repeat rw [assignIf_proj UserData.client_user_agent (fun v => rfl)]
    rw [map_some_getD_none]
  | some c =>
    simp only [createUserData]
    cases h9 : c.id.truthy <;>
      simp only [eq_self_iff_true, Bool.false_eq_true, if_true, if_false] <;>
      (try dsimp only) <;>
      (repeat rw [assignIf_proj UserData.client_user_agent (fun v => rfl)]) <;>
      rw [assignIf_set_proj UserData.client_user_agent (fun v => some v) (fun v => rfl)] <;>
      (repeat rw [assignIf_proj UserData.client_user_agent (fun v => rfl)]) <;>
      rw [map_some_getD_none]

theorem cud_fbc (H : String → String) (cust : Option Customer)
    (ip ua fbc fbp : Option String) :
    (createUserData H cust ip ua fbc fbp).fbc = jsStr fbc := by
  cases cust with
  | none =>
    simp only [createUserData]
    repeat rw [assignIf_proj UserData.fbc (fun v => rfl)]
    rw [assignIf_set_proj UserData.fbc (fun v => some v) (fun v => rfl)]
    repeat rw [assignIf_proj UserData.fbc (fun v => rfl)]
    rw [map_some_getD_none]
  | some c =>
    simp only [createUserData]
    cases h9 : c.id.truthy <;>
      simp only [eq_self_iff_true, Bool.false_eq_true, if_true, if_false] <;>
      (try dsimp only) <;>
      (repeat rw [assignIf_proj UserData.fbc (fun v => rfl)]) <;>
      rw [assignIf_set_proj UserData.fbc (fun v => some v) (fun v => rfl)] <;>
      (repeat rw [assignIf_proj UserData.fbc (fun v => rfl)]) <;>
      rw [map_some_getD_none]

theorem cud_fbp (H : String → String) (cust : Option Customer)
    (ip ua fbc fbp : Option String) :
    (createUserData H cust ip ua fbc fbp).fbp = jsStr fbp := by
  cases cust with
  | none =>
    simp only [createUserData]
    rw [assignIf_set_proj UserData.fbp (fun v => some v) (fun v => rfl)]
    repeat rw [assignIf_proj UserData.fbp (fun v => rfl)]
    rw [map_some_getD_none]
  | some c =>
    simp only [createUserData]
    cases h9 : c.id.truthy <;>
      simp only [eq_self_iff_true, Bool.false_eq_true, if_true, if_false] <;>
      (try dsimp only) <;>
      rw [assignIf_set_proj UserData.fbp (fun v => some v) (fun v => rfl)] <;>
      (repeat rw [assignIf_proj UserData.fbp (fun v => rfl)]) <;>
      rw [map_some_getD_none]

/-! ## Claim theorems -/

/-- C1: for every conversion event built by the pipeline (the five
`CAPIService.track*` builders, which all route their `user_data` through
`createUserData`, and the customer-registration webhook's inline
`user_data`), every identity or location field of `user_data` (`em`,
`ph`, `fn`, `ln`, `ct`, `st`, `zp`, `country`, `external_id`) is present
exactly when the raw upstream value is present and nonempty (truthy),
and is then the digest `H` (SHA-256, hex) of the lower-cased,
whitespace-trimmed raw value — never the plaintext, and never a hash of
an absent or empty value. -/
theorem C1_identity_fields_hashed :
    (∀ (H : String → String) (cust : Option Customer) (ip ua fbc fbp : Option String),
      (createUserData H cust ip ua fbc fbp).em = hashedField H (cust.bind Customer.email) ∧
      (createUserData H cust ip ua fbc fbp).ph = hashedField H (cust.bind Customer.phone) ∧
      (createUserData H cust ip ua fbc fbp).fn = hashedField H (cust.bind Customer.first_name) ∧
      (createUserData H cust ip ua fbc fbp).ln = hashedField H (cust.bind Customer.last_name) ∧
      (createUserData H cust ip ua fbc fbp).ct =
        hashedField H ((cust.bind Customer.default_address).bind Address.city) ∧
      (createUserData H cust ip ua fbc fbp).st =
        hashedField H ((cust.bind Customer.default_address).bind Address.province) ∧
      (createUserData H cust ip ua fbc fbp).zp =
        hashedField H ((cust.bind Customer.default_address).bind Address.zip) ∧
      (createUserData H cust ip ua fbc fbp).country =
        hashedField H ((cust.bind Customer.default_address).bind Address.country) ∧
      (createUserData H cust ip ua fbc fbp).external_id =
        hashedIdField H (cust.map Customer.id)) ∧
    (∀ (H : String → String) (cu : Customer),
      (registrationUserData H cu).em = hashedField H cu.email ∧
      (registrationUserData H cu).ph = hashedField H cu.phone ∧
      (registrationUserData H cu).fn = hashedField H cu.first_name ∧
      (registrationUserData H cu).ln = hashedField H cu.last_name ∧
      (registrationUserData H cu).ct = hashedField H (cu.default_address.bind Address.city) ∧
      (registrationUserData H cu).st = hashedField H (cu.default_address.bind Address.province) ∧
      (registrationUserData H cu).zp = hashedField H (cu.default_address.bind Address.zip) ∧
      (registrationUserData H cu).country =
        hashedField H (cu.default_address.bind Address.country) ∧
      (registrationUserData H cu).external_id = hashedIdField H (some cu.id)) ∧
    (∀ (H : String → String) (order : Order) (cust : Option Customer)
        (eid : Option String) (cd : ClientData) (now : Nat),
      (trackPurchaseEvent H order cust eid cd now).user_data =
        createUserData H cust cd.ip cd.userAgent cd.fbc cd.fbp) ∧
    (∀ (H : String → String) (v : Option Rat) (cur : String) (ids : List String)
        (n : Nat) (cust : Option Customer) (eid : Option String) (cd : ClientData) (now : Nat),
      (trackInitiateCheckoutEvent H v cur ids n cust eid cd now).user_data =
        createUserData H cust cd.ip cd.userAgent cd.fbc cd.fbp) ∧
    (∀ (H : String → String) (pid vid : String) (q : Nat) (p : Option Rat) (cur : String)
        (cust : Option Customer) (eid : Option String) (cd : ClientData) (now : Nat),
      (trackAddToCartEvent H pid vid q p cur cust eid cd now).user_data =
        createUserData H cust cd.ip cd.userAgent cd.fbc cd.fbp) ∧
    (∀ (H : String → String) (url : String) (cust : Option Customer) (eid : Option String)
        (cd : ClientData) (now : Nat) (rand : String),
      (trackPageViewEvent H url cust eid cd now rand).user_data =
        createUserData H cust cd.ip cd.userAgent cd.fbc cd.fbp) ∧
    (∀ (H : String → String) (pid cn cc : String) (v : Option Rat) (cur : String)
        (cust : Option Customer) (eid : Option String) (cd : ClientData) (now : Nat),
      (trackViewContentEvent H pid cn cc v cur cust eid cd now).user_data =
        createUserData H cust cd.ip cd.userAgent cd.fbc cd.fbp) ∧
    (∀ (H : String → String) (cu : Customer) (eid : String) (now : Nat),
      (completeRegistrationEvent H cu eid now).user_data = registrationUserData H cu) := by
  refine ⟨?_, ?_, ?_, ?_, ?_, ?_, ?_, ?_⟩
  · intro H cust ip ua fbc fbp
    exact ⟨cud_em H cust ip ua fbc fbp, cud_ph H cust ip ua fbc fbp,
      cud_fn H cust ip ua fbc fbp, cud_ln H cust ip ua fbc fbp,
      cud_ct H cust ip ua fbc fbp, cud_st H cust ip ua fbc fbp,
      cud_zp H cust ip ua fbc fbp, cud_country H cust ip ua fbc fbp,
      cud_external_id H cust ip ua fbc fbp⟩
  · intro H cu
    exact ⟨rfl, rfl, rfl, rfl, rfl, rfl, rfl, rfl, rfl⟩
  · intro H order cust eid cd now; rfl
  · intro H v cur ids n cust eid cd now; rfl
  · intro H pid vid q p cur cust eid cd now; rfl
  · intro H url cust eid cd now rand; rfl
  · intro H pid cn cc v cur cust eid cd now; rfl
  · intro H cu eid now; rfl

/-- C7: for every built event carrying commerce data with both a
line-item list and an item count (the Purchase and AddToCart builders),
`num_items` equals the sum of the quantities of the event's
`contents` list, and each quantity is the upstream line item's quantity
with a missing quantity defaulted to 1 (`jsQuantity`); in particular
quantities 2 and 1 yield `num_items = 3`. -/
theorem C7_num_items_is_quantity_sum :
    (∀ (H : String → String) (order : Order) (cust : Option Customer)
        (eid : Option String) (cd : ClientData) (now : Nat),
      ∃ c, (trackPurchaseEvent H order cust eid cd now).custom_data = some c ∧
        ∃ cs, c.contents = some cs ∧
          c.num_items = some ((cs.map Content.quantity).sum) ∧
          cs.map Content.quantity =
            (order.line_items.getD []).map (fun it => jsQuantity it.quantity)) ∧
    (∀ (H : String → String) (pid vid : String) (q : Nat) (p : Option Rat) (cur : String)
        (cust : Option Customer) (eid : Option String) (cd : ClientData) (now : Nat),
      ∃ c, (trackAddToCartEvent H pid vid q p cur cust eid cd now).custom_data = some c ∧
        ∃ cs, c.contents = some cs ∧
          c.num_items = some ((cs.map Content.quantity).sum)) ∧
    jsQuantity none = 1 ∧
    (∀ (H : String → String),
      ∃ c, (trackPurchaseEvent H
              { line_items := some [{ variant_id := .jstr "V1", quantity := some 2,
                                      price := some "10.00" },
                                    { variant_id := .jstr "V2", quantity := some 1,
                                      price := some "5.00" }] }
              none none {} 0).custom_data = some c ∧ c.num_items = some 3) := by
  refine ⟨?_, ?_, rfl, ?_⟩
  · intro H order cust eid cd now
    refine ⟨_, rfl, _, rfl, rfl, ?_⟩
    simp [purchaseContents, List.map_map, Function.comp]
  · intro H pid vid q p cur cust eid cd now
    exact ⟨_, rfl, _, rfl, by simp⟩
  · intro H
    exact ⟨_, rfl, rfl⟩

/-- C9: `sendEvents` issues its single call with the event batch as
`data`, the bearer credential as `access_token`, the test tag included
exactly when a nonempty one was supplied at construction, and a 10-second
(10000 ms) timeout; on a failing call it throws an error carrying the
upstream error detail when the response body provides a nonempty one,
falling back to the transport error message otherwise, and on a
successful call it returns the parsed acknowledgment. -/
theorem C9_sendEvents_contract (svc : CAPIService) (events : List CAPIEvent)
    (net : Except AxiosError CAPIResponse) (hne : events ≠ []) :
    (sendEvents svc events net).1.data = events ∧
    (sendEvents svc events net).1.access_token = svc.accessToken ∧
    (sendEvents svc events net).1.timeoutMs = 10000 ∧
    (sendEvents svc events net).1.url =
      "https://graph.facebook.com/v18.0/" ++ svc.pixelId ++ "/events" ∧
    (svc.testEventCode = none → (sendEvents svc events net).1.test_event_code = none) ∧
    (svc.testEventCode = some "" → (sendEvents svc events net).1.test_event_code = none) ∧
    (∀ t, svc.testEventCode = some t → t ≠ "" →
      (sendEvents svc events net).1.test_event_code = some t) ∧
    (∀ r, net = .ok r → (sendEvents svc events net).2 = .ok r) ∧
    (∀ e m, net = .error e → e.responseErrorMessage = some m → m ≠ "" →
      (sendEvents svc events net).2 = .error ("CAPI request failed: " ++ m)) ∧
    (∀ e, net = .error e → e.responseErrorMessage = none →
      (sendEvents svc events net).2 = .error ("CAPI request failed: " ++ e.message)) := by
  have hreq : (sendEvents svc events net).1 =
      { url := "https://graph.facebook.com/v18.0/" ++ svc.pixelId ++ "/events"
        data := events
        access_token := svc.accessToken
        test_event_code := jsStr svc.testEventCode
        timeoutMs := 10000 } := by
    cases net <;> rfl
  refine ⟨?_, ?_, ?_, ?_, ?_, ?_, ?_, ?_, ?_, ?_⟩
  · rw [hreq]
  · rw [hreq]
  · rw [hreq]
  · rw [hreq]
  · intro h; rw [hreq]; simp [jsStr, h]
  · intro h; rw [hreq]; simp [jsStr, h]
  · intro t h hne2; rw [hreq]; simp [jsStr, h, hne2]
  · intro r h; subst h; rfl
  · intro e m h hm hne2; subst h; simp [sendEvents, jsOr, jsStr, hm, hne2]
  · intro e h hm; subst h; simp [sendEvents, jsOr, jsStr, hm]

theorem C9_sendEvents_contract_witness :
    (([⟨"PageView", some 0, "website", none, {}, none, none⟩] : List CAPIEvent) ≠ []) ∧
    (sendEvents ⟨"px", "tok", some "TEST1"⟩
        [⟨"PageView", some 0, "website", none, {}, none, none⟩]
        (.error ⟨some "bad request", "Request failed with status code 400"⟩)).1.timeoutMs
      = 10000 := by
  refine ⟨by decide, ?_⟩
  exact (C9_sendEvents_contract ⟨"px", "tok", some "TEST1"⟩
    [⟨"PageView", some 0, "website", none, {}, none, none⟩]
    (.error ⟨some "bad request", "Request failed with status code 400"⟩)
    (by decide)).2.2.1

/-- C2: for every webhook delivery with a resolved connection (nonempty
pixel id) and a usable payload, a failing transport call (any axios
error: non-success HTTP response such as 400, or timeout) is caught by
the adapter action, which still returns the empty 200 acknowledgment;
the failure is recorded as a caught error and never propagated. -/
theorem C2_transport_failure_isolated (H : String → String) (mc : MetaConnection)
    (order checkout : Order) (cu : Customer) (it : LineItem) (its : List LineItem)
    (e : AxiosError) (now : Nat)
    (hpx : ¬ mc.pixelId = "") (hli : checkout.line_items = some (it :: its)) :
    (ordersCreateAction H true (some mc) (some order) (.error e) now).status = 200 ∧
    (ordersCreateAction H true (some mc) (some order) (.error e) now).caughtError =
      some ("CAPI request failed: " ++ jsOr e.responseErrorMessage e.message) ∧
    (ordersCreateAction H true (some mc) (some order) (.error e) now).sendCalls.length = 1 ∧
    (checkoutsCreateAction H true (some mc) (some checkout) (.error e) now).status = 200 ∧
    (checkoutsCreateAction H true (some mc) (some checkout) (.error e) now).caughtError.isSome
      = true ∧
    (customersCreateAction H true (some mc) (some cu) (.error e) now).status = 200 ∧
    (customersCreateAction H true (some mc) (some cu) (.error e) now).caughtError.isSome
      = true := by
  refine ⟨?_, ?_, ?_, ?_, ?_, ?_, ?_⟩ <;>
    simp [ordersCreateAction, checkoutsCreateAction, customersCreateAction, sendEvents,
      hpx, hli]

theorem C2_transport_failure_isolated_witness :
    (¬ ("px" : String) = "") ∧
    (({ line_items := some [{}] } : Order).line_items = some ([{}] : List LineItem)) ∧
    (ordersCreateAction (fun s => s) true (some ⟨"px", "tok"⟩) (some {})
        (.error ⟨none, "timeout of 10000ms exceeded"⟩) 0).status = 200 ∧
    (checkoutsCreateAction (fun s => s) true (some ⟨"px", "tok"⟩)
        (some { line_items := some [{}] })
        (.error ⟨none, "timeout of 10000ms exceeded"⟩) 0).status = 200 := by
  have h := C2_transport_failure_isolated (fun s => s) ⟨"px", "tok"⟩ {}
    { line_items := some [{}] } {} {} []
    ⟨none, "timeout of 10000ms exceeded"⟩ 0 (by decide) rfl
  exact ⟨by decide, rfl, h.1, h.2.2.2.1⟩

/-- C8: for every webhook delivery whose connection record is absent or
has an empty pixel id, each adapter action performs zero transport calls
and returns the empty 200 acknowledgment with no error recorded — a
no-op, for any session state, payload, network behavior and time. -/
theorem C8_missing_connection_noop (H : String → String) (hs : Bool)
    (conn : Option MetaConnection) (po : Option Order) (pc : Option Customer)
    (net : Except AxiosError CAPIResponse) (now : Nat)
    (hc : conn = none ∨ ∃ mc, conn = some mc ∧ mc.pixelId = "") :
    ordersCreateAction H hs conn po net now = emptyOk ∧
    customersCreateAction H hs conn pc net now = emptyOk ∧
    checkoutsCreateAction H hs conn po net now = emptyOk := by
  rcases hc with h | ⟨mc, hmc, hpx⟩
  · subst h
    cases hs <;>
      simp [ordersCreateAction, customersCreateAction, checkoutsCreateAction, emptyOk]
  · subst hmc
    cases hs <;>
      simp [ordersCreateAction, customersCreateAction, checkoutsCreateAction, hpx, emptyOk]

theorem C8_missing_connection_noop_witness :
    ((some (⟨"", "tok"⟩ : MetaConnection) = none ∨
      ∃ mc, some (⟨"", "tok"⟩ : MetaConnection) = some mc ∧ mc.pixelId = "") ∧
     ordersCreateAction (fun s => s) true (some ⟨"", "tok"⟩)
       (some { id := .jnum 7 }) (.ok ⟨1, [], "tr"⟩) 0 = emptyOk) := by
  refine ⟨Or.inr ⟨⟨"", "tok"⟩, rfl, rfl⟩, ?_⟩
  exact (C8_missing_connection_noop (fun s => s) true (some ⟨"", "tok"⟩)
    (some { id := .jnum 7 }) none (.ok ⟨1, [], "tr"⟩) 0
    (Or.inr ⟨⟨"", "tok"⟩, rfl, rfl⟩)).1

/-- C10: for every checkouts/create delivery with a resolved connection
and a present payload whose `line_items` is missing or an empty list,
the adapter performs zero transport calls and returns the empty 200
acknowledgment — a guard stricter than the wholly-absent-payload
condition. -/
theorem C10_empty_line_items_noop (H : String → String) (hs : Bool)
    (mc : MetaConnection) (checkout : Order)
    (net : Except AxiosError CAPIResponse) (now : Nat)
    (hpx : ¬ mc.pixelId = "")
    (h : checkout.line_items = none ∨ checkout.line_items = some []) :
    checkoutsCreateAction H hs (some mc) (some checkout) net now = emptyOk := by
  rcases h with h | h <;> cases hs <;>
    simp [checkoutsCreateAction, hpx, h, emptyOk]

theorem C10_empty_line_items_noop_witness :
    (¬ ("px" : String) = "") ∧
    (({ id := .jnum 3, line_items := some [] } : Order).line_items = none ∨
     ({ id := .jnum 3, line_items := some [] } : Order).line_items = some []) ∧
    checkoutsCreateAction (fun s => s) true (some ⟨"px", "tok"⟩)
      (some { id := .jnum 3, line_items := some [] }) (.ok ⟨1, [], "tr"⟩) 0 = emptyOk := by
  refine ⟨by decide, Or.inr rfl, ?_⟩
  exact C10_empty_line_items_noop (fun s => s) true ⟨"px", "tok"⟩
    { id := .jnum 3, line_items := some [] } (.ok ⟨1, [], "tr"⟩) 0 (by decide) (Or.inr rfl)

/-- C3 counterexample: a purchase built from an order whose single line
item carries both a product-level id ("7") and a variant-level id ("5")
gets content id "7" — the product-level identifier — while the
variant-first extraction (which the checkout route implements) yields
"5"; so the order path does not prefer the variant-level identifier. -/
theorem C3_counterexample :
    ((trackPurchaseEvent (fun s => s)
        { id := .jnum 1,
          line_items := some [{ product_id := .jstr "7", variant_id := .jstr "5" }] }
        none none {} 0).custom_data.getD {}).content_ids = some ["7"] ∧
    checkoutContentIds [{ product_id := .jstr "7", variant_id := .jstr "5" }] = ["5"] ∧
    (some ["7"] : Option (List String)) ≠ some ["5"] := by
  exact ⟨by decide, by decide, by decide⟩

/-- C3 amended: the checkout route's content-id extraction prefers the
variant id, then the product id, then the item's own id, dropping falsy
results; the purchase builder instead prefers the product id, then the
variant id, defaulting to the empty string, which is kept in
content_ids.  When a line item carries no product id the purchase path
falls back to the variant id, so the claim's concrete example
(variant-only items) still yields contentIds = ["V1","V2"] on both
paths. -/
theorem C3_amended_content_id_preference :
    (∀ (it : LineItem) (pv vv : String), it.product_id = .jstr pv → pv ≠ "" →
      it.variant_id = .jstr vv → vv ≠ "" →
      (purchaseContents [it]).map Content.id = [pv] ∧ checkoutContentIds [it] = [vv]) ∧
    (∀ (it : LineItem) (vv : String), it.product_id = .jnull →
      it.variant_id = .jstr vv → vv ≠ "" →
      (purchaseContents [it]).map Content.id = [vv] ∧ checkoutContentIds [it] = [vv]) ∧
    (∀ (it : LineItem), it.product_id = .jnull → it.variant_id = .jnull → it.id = .jnull →
      (purchaseContents [it]).map Content.id = [""] ∧ checkoutContentIds [it] = []) ∧
    (∀ (H : String → String),
      ∃ c, (trackPurchaseEvent H
              { id := .jnum 1,
                line_items := some
                  [{ variant_id := .jstr "V1", quantity := some 2, price := some "10.00" },
                   { variant_id := .jstr "V2", quantity := some 1, price := some "5.00" }] }
              none none {} 0).custom_data = some c ∧
        c.content_ids = some ["V1", "V2"]) ∧
    checkoutContentIds
      [{ variant_id := .jstr "V1", quantity := some 2, price := some "10.00" },
       { variant_id := .jstr "V2", quantity := some 1, price := some "5.00" }]
      = ["V1", "V2"] := by
  refine ⟨?_, ?_, ?_, ?_, by decide⟩
  · intro it pv vv hp hpne hv hvne
    constructor <;>
      simp [purchaseContents, checkoutContentIds, firstTruthy, jsStr, JVal.toStr,
        hp, hv, hpne, hvne]
  · intro it vv hp hv hvne
    constructor <;>
      simp [purchaseContents, checkoutContentIds, firstTruthy, jsStr, JVal.toStr,
        hp, hv, hvne]
  · intro it hp hv hi
    constructor <;>
      simp [purchaseContents, checkoutContentIds, firstTruthy, jsStr, JVal.toStr,
        hp, hv, hi]
  · intro H
    exact ⟨_, rfl, by decide⟩

theorem C3_amended_witness :
    (({ product_id := .jstr "7", variant_id := .jstr "5" } : LineItem).product_id
        = .jstr "7") ∧
    (("7" : String) ≠ "") ∧
    ((purchaseContents [{ product_id := .jstr "7", variant_id := .jstr "5" }]).map Content.id
        = ["7"] ∧
     checkoutContentIds [{ product_id := .jstr "7", variant_id := .jstr "5" }] = ["5"]) :=
  ⟨rfl, by decide,
    C3_amended_content_id_preference.1 { product_id := .jstr "7", variant_id := .jstr "5" }
      "7" "5" rfl (by decide) rfl (by decide)⟩

/-- C4 counterexample: a purchase built from an order with
total_price = "abc" (present but unparseable) has monetary value NaN
(modelled `some none`), not the number 0. -/
theorem C4_counterexample :
    ((trackPurchaseEvent (fun s => s) { id := .jnum 1, total_price := some "abc" }
        none none {} 0).custom_data.getD {}).value = some none ∧
    (some (none : Option Rat) : Option (Option Rat)) ≠ some (some 0) := by
  exact ⟨by decide, by decide⟩

/-- C4 amended: an absent or empty total_price yields the numeric value
0 (the `|| '0'` fallback); a present, nonempty but unparseable
total_price yields value NaN (modelled `none`) — not 0 — and the build
still succeeds (an event with a value field is always produced). -/
theorem C4_amended_unparsable_price_is_nan :
    (∀ (H : String → String) (order : Order) (cust : Option Customer)
        (eid : Option String) (cd : ClientData) (now : Nat),
      (order.total_price = none ∨ order.total_price = some "" →
        ((trackPurchaseEvent H order cust eid cd now).custom_data.getD {}).value =
          some (some 0)) ∧
      (∀ s, order.total_price = some s → s ≠ "" → parseFloat s = none →
        ((trackPurchaseEvent H order cust eid cd now).custom_data.getD {}).value =
          some none)) ∧
    (∀ s : String, s ≠ "" → jsOr (some s) "0" = s) ∧
    jsOr none "0" = "0" ∧
    parseFloat "0" = some 0 := by
  refine ⟨?_, ?_, rfl, by decide⟩
  · intro H order cust eid cd now
    constructor
    · intro h
      rcases h with h | h <;>
        simp [trackPurchaseEvent, h, jsOr, jsStr] <;> decide
    · intro s hs hne hp
      simp [trackPurchaseEvent, hs, jsOr, jsStr, hne, hp]
  · intro s hne
    simp [jsOr, jsStr, hne]

theorem C4_amended_witness :
    (({ id := .jnum 1, total_price := some "abc" } : Order).total_price = some "abc") ∧
    (("abc" : String) ≠ "") ∧
    parseFloat "abc" = none ∧
    ((trackPurchaseEvent (fun s => s) { id := .jnum 1, total_price := some "abc" }
        none none {} 0).custom_data.getD {}).value = some none :=
  ⟨rfl, by decide, by decide,
    (C4_amended_unparsable_price_is_nan.1 (fun s => s)
        { id := .jnum 1, total_price := some "abc" } none none {} 0).2
      "abc" rfl (by decide) (by decide)⟩

/-- C5 counterexample: an event built from a record whose created_at is
present but unparseable ("garbage") has event_time NaN (modelled
`none`), not the current wall-clock time in whole seconds. -/
theorem C5_counterexample :
    (completeRegistrationEvent (fun s => s)
        { id := .jnum 42, created_at := some "garbage" } "k" 1700000000123).event_time
      = none ∧
    (none : Option Int) ≠ some (Int.fdiv (1700000000123 : Int) 1000) := by
  exact ⟨by decide, by decide⟩

/-- C5 amended: event_time equals created_at converted to whole epoch
seconds when created_at is present, nonempty and parseable
(e.g. "2024-01-01T00:00:00Z" yields 1704067200), and the current time in
whole seconds when created_at is absent or empty; but when created_at is
present, nonempty and unparseable, event_time is NaN (modelled `none`),
not the current time. -/
theorem C5_amended_event_time_policy :
    (∀ (ca : Option String) (now : Nat) (s : String) (ms : Int),
      ca = some s → s ≠ "" → parseDate s = some ms →
      eventTimeOf ca now = some (Int.fdiv ms 1000)) ∧
    (∀ (ca : Option String) (now : Nat), ca = none ∨ ca = some "" →
      eventTimeOf ca now = some (Int.fdiv (now : Int) 1000)) ∧
    (∀ (ca : Option String) (now : Nat) (s : String),
      ca = some s → s ≠ "" → parseDate s = none → eventTimeOf ca now = none) ∧
    (∀ (H : String → String) (order : Order) (cust : Option Customer)
        (eid : Option String) (cd : ClientData) (now : Nat),
      (trackPurchaseEvent H order cust eid cd now).event_time =
        eventTimeOf order.created_at now) ∧
    (∀ (H : String → String) (cu : Customer) (eid : String) (now : Nat),
      (completeRegistrationEvent H cu eid now).event_time = eventTimeOf cu.created_at now) ∧
    parseDate "2024-01-01T00:00:00Z" = some 1704067200000 ∧
    (∀ (H : String → String) (now : Nat),
      (completeRegistrationEvent H
          { id := .jnum 42, email := some "A@B.com",
            created_at := some "2024-01-01T00:00:00Z" } "k" now).event_time
        = some 1704067200) := by
  refine ⟨?_, ?_, ?_, ?_, ?_, by decide, ?_⟩
  · intro ca now s ms hca hne hp
    simp [eventTimeOf, hca, jsStr, hne, hp]
  · intro ca now h
    rcases h with h | h <;> simp [eventTimeOf, h, jsStr]
  · intro ca now s hca hne hp
    simp [eventTimeOf, hca, jsStr, hne, hp]
  · intro H order cust eid cd now; rfl
  · intro H cu eid now; rfl
  · intro H now; rfl

theorem C5_amended_witness :
    ((some "garbage" : Option String) = some "garbage") ∧
    (("garbage" : String) ≠ "") ∧
    parseDate "garbage" = none ∧
    eventTimeOf (some "garbage") 1700000000123 = none :=
  ⟨rfl, by decide, by decide,
    C5_amended_event_time_policy.2.2.1 (some "garbage") 1700000000123 "garbage"
      rfl (by decide) (by decide)⟩

/-- C6 counterexample: the dedup key generated by the orders/create
route for order id 1 at build time 5 is "shopify_order_1_5", which
contains only three underscores and therefore cannot be written as the
claimed five-part composition
platform_entity_id_suffix_timestamp (which needs at least four). -/
theorem C6_counterexample :
    ¬ ∃ pfx ek eid sfx ts : String,
        orderDedupKey (.jnum 1) 5 =
          pfx ++ "_" ++ ek ++ "_" ++ eid ++ "_" ++ sfx ++ "_" ++ ts := by
  rintro ⟨p, e, i, s, t, h⟩
  have hk : orderDedupKey (.jnum 1) 5 = "shopify_order_1_5" := by decide
  rw [hk] at h
  have hc := congrArg (fun x : String => x.data.count '_') h
  simp only [String.data_append, List.count_append] at hc
  have h3 : ("shopify_order_1_5" : String).data.count '_' = 3 := by decide
  have h1 : ("_" : String).data.count '_' = 1 := by decide
  rw [h3, h1] at hc
  omega

/-- C6 amended: the registration dedup key follows the five-part
composition shopify_customer_{id}_signup_{timestamp}; the purchase and
checkout keys follow a four-part composition
shopify_{entity-kind}_{entity-id}_{timestamp} with no event-kind suffix,
the entity kind (order vs. checkout) serving to distinguish the event
kinds; in particular two builds for the same order id at different event
kinds (checkout vs. purchase) produce different dedup keys even at the
same build timestamp. -/
theorem C6_amended_dedup_key_composition :
    (∀ (idv : JVal) (ts : Nat),
      orderDedupKey idv ts =
        "shopify" ++ "_" ++ "order" ++ "_" ++ idv.interp ++ "_" ++ toString ts ∧
      checkoutDedupKey idv ts =
        "shopify" ++ "_" ++ "checkout" ++ "_" ++ idv.interp ++ "_" ++ toString ts ∧
      customerDedupKey idv ts =
        "shopify" ++ "_" ++ "customer" ++ "_" ++ idv.interp ++ "_" ++ "signup" ++ "_"
          ++ toString ts) ∧
    (∀ (idv : JVal) (t1 t2 : Nat), orderDedupKey idv t1 ≠ checkoutDedupKey idv t2) := by
  constructor
  · intro idv ts
    refine ⟨rfl, rfl, ?_⟩
    simp only [customerDedupKey, String.append_assoc]
    rfl
  · intro idv t1 t2 h
    have h10 := congrArg (fun s : String => s.data.take 10) h
    simp only [orderDedupKey, checkoutDedupKey, String.data_append, List.append_assoc] at h10
    rw [List.take_append_of_le_length (by decide),
        List.take_append_of_le_length (by decide)] at h10
    exact absurd h10 (by decide)

theorem C6_amended_witness :
    customerDedupKey (.jnum 42) 5 =
      "shopify" ++ "_" ++ "customer" ++ "_" ++ (JVal.jnum 42).interp ++ "_" ++ "signup"
        ++ "_" ++ toString 5 :=
  (C6_amended_dedup_key_composition.1 (.jnum 42) 5).2.2

end Cogs
